import Mathlib

/-!
Shallow embedding of `src/cline_automation.py`, a thin HTTP client
(`ClineAutomation`) that packages command names and arguments into JSON
request bodies, POSTs them to a base URL, and converts transport failures
into sentinel return values.

The network is modelled by a `Transport` value: either the HTTP call itself
raises a connection-level `requests.exceptions.RequestException` (connection
error or timeout), or a response arrives with a status code, reason, final
URL, and a body that either parses as JSON or is malformed.  Per the
`requests` library (version 2.27 and later), `Response.raise_for_status`
raises `HTTPError` exactly when `400 <= status < 600`, and
`Response.json()` on a malformed body raises
`requests.exceptions.JSONDecodeError`, which is a `RequestException` and is
therefore caught by the `except` clause in `_make_request` and
`get_available_commands`.  Exception messages are modelled after the
formats the `requests` library produces.
-/

/-- JSON values, the payloads and responses the Python client handles.
Objects keep insertion order, as Python dicts do. -/
inductive Json where
  | null : Json
  | bool (b : Bool) : Json
  | num (n : Int) : Json
  | str (s : String) : Json
  | arr (items : List Json) : Json
  | obj (entries : List (String × Json)) : Json

/-- Whether a top-level JSON object contains the given key. -/
def Json.hasKey : Json → String → Bool
  | .obj entries, k => entries.any (fun p => p.1 == k)
  | _, _ => false

/-- Python truthiness of a value, as tested by `if args:` in
`_make_request`: `None`, `False`, `0`, the empty string, the empty list and
the empty dict are falsy, everything else is truthy. -/
def jsonTruthy : Json → Bool
  | .null => false
  | .bool b => b
  | .num n => n != 0
  | .str s => s != ""
  | .arr items => !items.isEmpty
  | .obj entries => !entries.isEmpty

/-- Truthiness of the optional `args` parameter (`None` is falsy). -/
def argsTruthy : Option Json → Bool
  | none => false
  | some j => jsonTruthy j

/-- Connection-level failures that `requests.post` / `requests.get` raise
before any response exists: connection errors and timeouts.  Both render
(via `str(e)`) with the `HTTPConnectionPool` prefix of urllib3. -/
inductive ConnFailure where
  | connectionError (host : String) (port : Nat) (detail : String)
  | timeout (host : String) (port : Nat) (detail : String)

/-- The message `str(e)` yields for a connection-level failure, after the
format of `requests` / urllib3. -/
def ConnFailure.str : ConnFailure → String
  | .connectionError host port detail =>
      "HTTPConnectionPool(host=" ++ (host ++ (", port=" ++ (toString port ++ ("): " ++ detail))))
  | .timeout host port detail =>
      "HTTPConnectionPool(host=" ++ (host ++ (", port=" ++ (toString port ++ ("): " ++ detail))))

/-- The message of the `HTTPError` raised by `Response.raise_for_status`
for a status in 400..599: Client Error below 500, Server Error from 500. -/
def httpErrorMsg (status : Nat) (reason url : String) : String :=
  toString status ++
    ((if status < 500 then " Client Error: " else " Server Error: ") ++
      (reason ++ (" for url: " ++ url)))

/-- The message of the `JSONDecodeError` raised by `Response.json()` on a
body that does not parse as JSON. -/
def jsonDecodeMsg (msg : String) (lineNo colNo pos : Nat) : String :=
  msg ++ (": line " ++ (toString lineNo ++ (" column " ++
    (toString colNo ++ (" (char " ++ (toString pos ++ ")"))))))

/-- A response body: either it parses to a JSON value or `Response.json()`
fails at the recorded position with the recorded message. -/
inductive JsonBody where
  | parsed (j : Json)
  | malformed (msg : String) (lineNo colNo pos : Nat)

/-- An HTTP response as seen by the client: status code, reason phrase,
final URL (used in the `HTTPError` message), and the body. -/
structure HttpResponse where
  status : Nat
  reason : String
  url : String
  body : JsonBody

/-- One round trip with the automation server: either the request itself
raises a connection-level exception, or a response arrives. -/
inductive Transport where
  | failure (e : ConnFailure)
  | response (r : HttpResponse)

/-- Whether this transport outcome is one the client treats as an error:
a connection-level exception, or a status `raise_for_status` raises for
(400..599).  Responses with other statuses and parseable bodies are
returned as-is. -/
def Transport.isTransportError : Transport → Bool
  | .failure _ => true
  | .response r => decide (400 ≤ r.status ∧ r.status < 600)

/-- The sentinel failure object `{"success": False, "error": str(e)}`
synthesized by `_make_request` when a `RequestException` is caught. -/
def failObj (msg : String) : Json :=
  Json.obj [("success", Json.bool false), ("error", Json.str msg)]

/-- The `try`/`except` body of `_make_request`: POST the payload, call
`raise_for_status`, parse the body; any `RequestException` (connection
error, timeout, `HTTPError`, `JSONDecodeError`) is caught and converted to
the sentinel failure object. -/
def handle_response : Transport → Json
  | .failure e => failObj (ConnFailure.str e)
  | .response r =>
      if 400 ≤ r.status ∧ r.status < 600 then
        failObj (httpErrorMsg r.status r.reason r.url)
      else
        match r.body with
        | .parsed j => j
        | .malformed m l c p => failObj (jsonDecodeMsg m l c p)

/-- The payload `_make_request` builds: `{"command": command}`, with an
`"args"` key added only when `args` is truthy (`if args:`). -/
def make_payload (command : String) (args : Option Json) : Json :=
  match args with
  | some a =>
      if jsonTruthy a then
        Json.obj [("command", Json.str command), ("args", a)]
      else
        Json.obj [("command", Json.str command)]
  | none => Json.obj [("command", Json.str command)]

/-- The single POST a call to `_make_request` issues: its target URL and
its JSON body. -/
structure PostRequest where
  url : String
  payload : Json

/-- The single GET a call to `get_available_commands` issues. -/
structure GetRequest where
  url : String

/-- The client: one attribute, the base URL, set in `__init__`. -/
structure ClineAutomation where
  base_url : String

/-- Constructing a client: `__init__` with an explicit `base_url` argument
or with the argument omitted (default `http://localhost:3000`). -/
def mkClineAutomation : Option String → ClineAutomation
  | none => ClineAutomation.mk "http://localhost:3000"
  | some u => ClineAutomation.mk u

/-- The request helper `_make_request(command, args=None)`: builds the
payload, POSTs it to `self.base_url`, and handles the response.  The
returned pair is the one POST issued and the value returned to the
caller; the function is total, so no exception reaches the caller. -/
def ClineAutomation._make_request (c : ClineAutomation) (command : String)
    (args : Option Json) (t : Transport) : PostRequest × Json :=
  (PostRequest.mk c.base_url (make_payload command args), handle_response t)

/-- The `try`/`except` body of `get_available_commands`: GET, call
`raise_for_status`, parse the body; any `RequestException` (connection
error, timeout, `HTTPError`, `JSONDecodeError`) is caught and the empty
list is returned instead. -/
def handle_commands_response : Transport → Json
  | .failure _ => Json.arr []
  | .response r =>
      if 400 ≤ r.status ∧ r.status < 600 then Json.arr []
      else
        match r.body with
        | .parsed j => j
        | .malformed _ _ _ _ => Json.arr []

/-- The discovery call `get_available_commands()`: GET to
`base_url + "/commands"`, with the failure handling above. -/
def ClineAutomation.get_available_commands (c : ClineAutomation)
    (t : Transport) : GetRequest × Json :=
  (GetRequest.mk (c.base_url ++ "/commands"), handle_commands_response t)

/-- Convenience method `open_new_tab`. -/
def ClineAutomation.open_new_tab (c : ClineAutomation) (t : Transport) :
    PostRequest × Json :=
  c._make_request "openNewTab" none t

/-- Convenience method `click_plus_button`. -/
def ClineAutomation.click_plus_button (c : ClineAutomation) (t : Transport) :
    PostRequest × Json :=
  c._make_request "clickPlusButton" none t

/-- Convenience method `click_mcp_button`. -/
def ClineAutomation.click_mcp_button (c : ClineAutomation) (t : Transport) :
    PostRequest × Json :=
  c._make_request "clickMCPButton" none t

/-- Convenience method `click_settings_button`. -/
def ClineAutomation.click_settings_button (c : ClineAutomation) (t : Transport) :
    PostRequest × Json :=
  c._make_request "clickSettingsButton" none t

/-- Convenience method `click_history_button`. -/
def ClineAutomation.click_history_button (c : ClineAutomation) (t : Transport) :
    PostRequest × Json :=
  c._make_request "clickHistoryButton" none t

/-- Convenience method `click_account_button`. -/
def ClineAutomation.click_account_button (c : ClineAutomation) (t : Transport) :
    PostRequest × Json :=
  c._make_request "clickAccountButton" none t

/-- Convenience method `add_to_chat(range_start, range_end)`: wraps the two
position values in `{"range": {"start": ..., "end": ...}}`.  No validation
is performed on the positions. -/
def ClineAutomation.add_to_chat (c : ClineAutomation)
    (range_start range_end : Json) (t : Transport) : PostRequest × Json :=
  c._make_request "addToChat"
    (some (Json.obj [("range",
      Json.obj [("start", range_start), ("end", range_end)])])) t

/-- Convenience method `add_terminal_output`. -/
def ClineAutomation.add_terminal_output (c : ClineAutomation) (t : Transport) :
    PostRequest × Json :=
  c._make_request "addTerminalOutput" none t

/-- Convenience method `fix_with_cline(range_start, range_end)`: identical
argument shape to `add_to_chat`, under the command `fixWithCline`. -/
def ClineAutomation.fix_with_cline (c : ClineAutomation)
    (range_start range_end : Json) (t : Transport) : PostRequest × Json :=
  c._make_request "fixWithCline"
    (some (Json.obj [("range",
      Json.obj [("start", range_start), ("end", range_end)])])) t

/-- Convenience method `switch_to_plan_mode`. -/
def ClineAutomation.switch_to_plan_mode (c : ClineAutomation) (t : Transport) :
    PostRequest × Json :=
  c._make_request "switchToPlanMode" none t

/-- Convenience method `switch_to_act_mode`. -/
def ClineAutomation.switch_to_act_mode (c : ClineAutomation) (t : Transport) :
    PostRequest × Json :=
  c._make_request "switchToActMode" none t

/-- Convenience method `click_select_button(button_id)`. -/
def ClineAutomation.click_select_button (c : ClineAutomation)
    (button_id : String) (t : Transport) : PostRequest × Json :=
  c._make_request "clickSelectButton"
    (some (Json.obj [("buttonId", Json.str button_id)])) t

/-- Convenience method `get_task_status`. -/
def ClineAutomation.get_task_status (c : ClineAutomation) (t : Transport) :
    PostRequest × Json :=
  c._make_request "getTaskStatus" none t

/-- Convenience method `send_text(text, is_new_task=False)`, with the
boolean passed explicitly. -/
def ClineAutomation.send_text (c : ClineAutomation) (text : String)
    (is_new_task : Bool) (t : Transport) : PostRequest × Json :=
  c._make_request "sendText"
    (some (Json.obj [("text", Json.str text),
      ("isNewTask", Json.bool is_new_task)])) t

/-- `send_text(text)` with `is_new_task` left to its Python default,
`False`. -/
def ClineAutomation.send_text_default (c : ClineAutomation) (text : String)
    (t : Transport) : PostRequest × Json :=
  c.send_text text false t

/-- Convenience method `start_new_task(task, images=None)`: `args` is the
positional list `[task]`, and `images` is appended to it only when truthy
(`if images:`), so `None` and the empty list are both skipped. -/
def ClineAutomation.start_new_task (c : ClineAutomation) (task : String)
    (images : Option (List String)) (t : Transport) : PostRequest × Json :=
  let args : List Json :=
    match images with
    | none => [Json.str task]
    | some imgs =>
        if imgs.isEmpty then [Json.str task]
        else [Json.str task, Json.arr (imgs.map Json.str)]
  c._make_request "startNewTask" (some (Json.arr args)) t

/-- One call on the client, with the transport outcome it meets: one
constructor per public method of `ClineAutomation`. -/
inductive Op where
  | make_request (command : String) (args : Option Json) (t : Transport)
  | get_available_commands (t : Transport)
  | open_new_tab (t : Transport)
  | click_plus_button (t : Transport)
  | click_mcp_button (t : Transport)
  | click_settings_button (t : Transport)
  | click_history_button (t : Transport)
  | click_account_button (t : Transport)
  | add_to_chat (range_start range_end : Json) (t : Transport)
  | add_terminal_output (t : Transport)
  | fix_with_cline (range_start range_end : Json) (t : Transport)
  | switch_to_plan_mode (t : Transport)
  | switch_to_act_mode (t : Transport)
  | click_select_button (button_id : String) (t : Transport)
  | get_task_status (t : Transport)
  | send_text (text : String) (is_new_task : Bool) (t : Transport)
  | start_new_task (task : String) (images : Option (List String)) (t : Transport)

/-- Running one call: the state after the call and the value returned.  No
method of the source assigns to `self`, so the state component is the
unchanged client. -/
def applyOp (c : ClineAutomation) : Op → ClineAutomation × Json
  | .make_request cmd args t => (c, (c._make_request cmd args t).2)
  | .get_available_commands t => (c, (c.get_available_commands t).2)
  | .open_new_tab t => (c, (c.open_new_tab t).2)
  | .click_plus_button t => (c, (c.click_plus_button t).2)
  | .click_mcp_button t => (c, (c.click_mcp_button t).2)
  | .click_settings_button t => (c, (c.click_settings_button t).2)
  | .click_history_button t => (c, (c.click_history_button t).2)
  | .click_account_button t => (c, (c.click_account_button t).2)
  | .add_to_chat s e t => (c, (c.add_to_chat s e t).2)
  | .add_terminal_output t => (c, (c.add_terminal_output t).2)
  | .fix_with_cline s e t => (c, (c.fix_with_cline s e t).2)
  | .switch_to_plan_mode t => (c, (c.switch_to_plan_mode t).2)
  | .switch_to_act_mode t => (c, (c.switch_to_act_mode t).2)
  | .click_select_button b t => (c, (c.click_select_button b t).2)
  | .get_task_status t => (c, (c.get_task_status t).2)
  | .send_text txt b t => (c, (c.send_text txt b t).2)
  | .start_new_task task imgs t => (c, (c.start_new_task task imgs t).2)

/-- The client state after a sequence of calls. -/
def runOps (c : ClineAutomation) (ops : List Op) : ClineAutomation :=
  ops.foldl (fun s o => (applyOp s o).1) c

/-- No call changes the client state. -/
theorem applyOp_fst (c : ClineAutomation) (o : Op) : (applyOp c o).1 = c := by
  cases o <;> rfl

/-- A string with a nonempty left part is nonempty. -/
theorem concat_ne_empty (s t : String) (h : 0 < s.length) : s ++ t ≠ "" := by
  intro hc
  have h2 := congrArg String.length hc
  rw [String.length_append] at h2
  have h3 : String.length "" = 0 := rfl
  rw [h3] at h2
  omega

/-- Connection-failure messages are never empty: they start with the
urllib3 connection-pool prefix. -/
theorem connFailureStr_ne_empty (e : ConnFailure) : ConnFailure.str e ≠ "" := by
  cases e <;> exact concat_ne_empty _ _ (by decide)

/-- HTTP-error messages are never empty: they contain the fixed
Client Error / Server Error text. -/
theorem httpErrorMsg_ne_empty (status : Nat) (reason url : String) :
    httpErrorMsg status reason url ≠ "" := by
  intro hc
  have h2 := congrArg String.length hc
  rw [httpErrorMsg] at h2
  rw [String.length_append, String.length_append, String.length_append,
    String.length_append] at h2
  have h3 : String.length "" = 0 := rfl
  rw [h3] at h2
  by_cases h5 : status < 500
  · rw [if_pos h5] at h2
    have h6 : String.length " Client Error: " = 15 := rfl
    rw [h6] at h2
    omega
  · rw [if_neg h5] at h2
    have h6 : String.length " Server Error: " = 15 := rfl
    rw [h6] at h2
    omega

/-- C1 counterexample: a non-2xx status is not always converted to the
sentinel object.  `raise_for_status` raises only for statuses 400..599, so
a 304 Not Modified response whose body parses returns the parsed body,
which has no `success` key, not the sentinel failure object. -/
theorem c1_non2xx_not_always_sentinel :
    ((mkClineAutomation none)._make_request "getTaskStatus" none
        (Transport.response (HttpResponse.mk 304 "Not Modified"
          "http://localhost:3000"
          (JsonBody.parsed (Json.obj [("ok", Json.bool true)]))))).2
      = Json.obj [("ok", Json.bool true)] ∧
    Json.hasKey ((mkClineAutomation none)._make_request "getTaskStatus" none
        (Transport.response (HttpResponse.mk 304 "Not Modified"
          "http://localhost:3000"
          (JsonBody.parsed (Json.obj [("ok", Json.bool true)]))))).2 "success"
      = false :=
  ⟨rfl, rfl⟩

/-- C1 (amended): for every transport-level failure of `_make_request` —
a connection error, a timeout, or a 4xx/5xx HTTP status (the statuses
`raise_for_status` raises for) — the call returns the sentinel object
with `success = false` and a non-empty error string, and, being total,
raises nothing to the caller. -/
theorem c1_execute_failure_returns_sentinel (c : ClineAutomation)
    (command : String) (args : Option Json) (t : Transport)
    (h : t.isTransportError = true) :
    ∃ msg, (c._make_request command args t).2 = failObj msg ∧ msg ≠ "" := by
  cases t with
  | failure e =>
      exact ⟨ConnFailure.str e, rfl, connFailureStr_ne_empty e⟩
  | response r =>
      simp only [Transport.isTransportError, decide_eq_true_eq] at h
      refine ⟨httpErrorMsg r.status r.reason r.url, ?_,
        httpErrorMsg_ne_empty r.status r.reason r.url⟩
      show handle_response (Transport.response r) = _
      unfold handle_response
      dsimp only
      rw [if_pos h]

/-- C1 witness: a concrete connection failure yields the sentinel. -/
theorem c1_execute_failure_returns_sentinel_witness :
    (Transport.failure (ConnFailure.connectionError "localhost" 3000
        "Max retries exceeded with url: /")).isTransportError = true ∧
    ∃ msg, ((mkClineAutomation none)._make_request "openNewTab" none
        (Transport.failure (ConnFailure.connectionError "localhost" 3000
          "Max retries exceeded with url: /"))).2 = failObj msg ∧ msg ≠ "" :=
  ⟨rfl, c1_execute_failure_returns_sentinel (mkClineAutomation none)
    "openNewTab" none
    (Transport.failure (ConnFailure.connectionError "localhost" 3000
      "Max retries exceeded with url: /")) rfl⟩

/-- C2: a malformed JSON body is caught inside the request helper and
converted to the fallback value: for the command POST, a sentinel object
`failObj msg` for some message; for the discovery GET, the empty list.
This holds for every status, because a 4xx/5xx status is converted by
`raise_for_status` before parsing and any other status by the
`JSONDecodeError` branch. -/
theorem c2_malformed_json_fallback (c : ClineAutomation) (command : String)
    (args : Option Json) (m : String) (l co p : Nat) (s : Nat)
    (reason url : String) :
    (∃ msg, (c._make_request command args
        (Transport.response (HttpResponse.mk s reason url
          (JsonBody.malformed m l co p)))).2 = failObj msg) ∧
    (c.get_available_commands
        (Transport.response (HttpResponse.mk s reason url
          (JsonBody.malformed m l co p)))).2 = Json.arr [] := by
  constructor
  · by_cases h : 400 ≤ s ∧ s < 600
    · refine ⟨httpErrorMsg s reason url, ?_⟩
      show handle_response (Transport.response (HttpResponse.mk s reason url
        (JsonBody.malformed m l co p))) = _
      unfold handle_response
      dsimp only
      rw [if_pos h]
    · refine ⟨jsonDecodeMsg m l co p, ?_⟩
      show handle_response (Transport.response (HttpResponse.mk s reason url
        (JsonBody.malformed m l co p))) = _
      unfold handle_response
      dsimp only
      rw [if_neg h]
  · by_cases h : 400 ≤ s ∧ s < 600
    · show handle_commands_response (Transport.response (HttpResponse.mk s reason url
        (JsonBody.malformed m l co p))) = _
      unfold handle_commands_response
      dsimp only
      rw [if_pos h]
    · show handle_commands_response (Transport.response (HttpResponse.mk s reason url
        (JsonBody.malformed m l co p))) = _
      unfold handle_commands_response
      dsimp only
      rw [if_neg h]

/-- C3: every no-argument convenience method issues exactly one POST to
the base URL whose body is the one-key object with the exact command name
from the catalog and no `args` key. -/
theorem c3_no_arg_methods_payload (c : ClineAutomation) (t : Transport) :
    (c.open_new_tab t).1
      = PostRequest.mk c.base_url (Json.obj [("command", Json.str "openNewTab")]) ∧
    Json.hasKey (c.open_new_tab t).1.payload "args" = false ∧
    (c.click_plus_button t).1
      = PostRequest.mk c.base_url (Json.obj [("command", Json.str "clickPlusButton")]) ∧
    Json.hasKey (c.click_plus_button t).1.payload "args" = false ∧
    (c.click_mcp_button t).1
      = PostRequest.mk c.base_url (Json.obj [("command", Json.str "clickMCPButton")]) ∧
    Json.hasKey (c.click_mcp_button t).1.payload "args" = false ∧
    (c.click_settings_button t).1
      = PostRequest.mk c.base_url (Json.obj [("command", Json.str "clickSettingsButton")]) ∧
    Json.hasKey (c.click_settings_button t).1.payload "args" = false ∧
    (c.click_history_button t).1
      = PostRequest.mk c.base_url (Json.obj [("command", Json.str "clickHistoryButton")]) ∧
    Json.hasKey (c.click_history_button t).1.payload "args" = false ∧
    (c.click_account_button t).1
      = PostRequest.mk c.base_url (Json.obj [("command", Json.str "clickAccountButton")]) ∧
    Json.hasKey (c.click_account_button t).1.payload "args" = false ∧
    (c.add_terminal_output t).1
      = PostRequest.mk c.base_url (Json.obj [("command", Json.str "addTerminalOutput")]) ∧
    Json.hasKey (c.add_terminal_output t).1.payload "args" = false ∧
    (c.switch_to_plan_mode t).1
      = PostRequest.mk c.base_url (Json.obj [("command", Json.str "switchToPlanMode")]) ∧
    Json.hasKey (c.switch_to_plan_mode t).1.payload "args" = false ∧
    (c.switch_to_act_mode t).1
      = PostRequest.mk c.base_url (Json.obj [("command", Json.str "switchToActMode")]) ∧
    Json.hasKey (c.switch_to_act_mode t).1.payload "args" = false ∧
    (c.get_task_status t).1
      = PostRequest.mk c.base_url (Json.obj [("command", Json.str "getTaskStatus")]) ∧
    Json.hasKey (c.get_task_status t).1.payload "args" = false :=
  ⟨rfl, rfl, rfl, rfl, rfl, rfl, rfl, rfl, rfl, rfl,
   rfl, rfl, rfl, rfl, rfl, rfl, rfl, rfl, rfl, rfl⟩

/-- C4 counterexample: a non-2xx status does not always yield the empty
sequence.  A 304 response to the discovery GET whose body parses is
returned as-is, because `raise_for_status` raises only for 400..599. -/
theorem c4_commands_not_always_empty :
    ((mkClineAutomation none).get_available_commands
        (Transport.response (HttpResponse.mk 304 "Not Modified"
          "http://localhost:3000/commands"
          (JsonBody.parsed (Json.arr [Json.str "openNewTab"]))))).2
      = Json.arr [Json.str "openNewTab"] ∧
    ((mkClineAutomation none).get_available_commands
        (Transport.response (HttpResponse.mk 304 "Not Modified"
          "http://localhost:3000/commands"
          (JsonBody.parsed (Json.arr [Json.str "openNewTab"]))))).2
      ≠ Json.arr [] := by
  refine ⟨rfl, ?_⟩
  intro h
  rw [show ((mkClineAutomation none).get_available_commands
      (Transport.response (HttpResponse.mk 304 "Not Modified"
        "http://localhost:3000/commands"
        (JsonBody.parsed (Json.arr [Json.str "openNewTab"]))))).2
    = Json.arr [Json.str "openNewTab"] from rfl] at h
  injection h with h2
  exact List.cons_ne_nil _ _ h2

/-- C4 (amended): for every transport-level failure of the discovery GET —
a connection error, a timeout, or a 4xx/5xx HTTP status (the statuses
`raise_for_status` raises for) — `get_available_commands` returns the
empty sequence and, being total, raises nothing to the caller. -/
theorem c4_get_commands_failure_empty (c : ClineAutomation) (t : Transport)
    (h : t.isTransportError = true) :
    (c.get_available_commands t).2 = Json.arr [] := by
  cases t with
  | failure e => rfl
  | response r =>
      simp only [Transport.isTransportError, decide_eq_true_eq] at h
      show handle_commands_response (Transport.response r) = _
      unfold handle_commands_response
      dsimp only
      rw [if_pos h]

/-- C4 witness: a concrete connection failure yields the empty list. -/
theorem c4_get_commands_failure_empty_witness :
    (Transport.failure (ConnFailure.connectionError "localhost" 3000
        "Connection refused")).isTransportError = true ∧
    ((mkClineAutomation none).get_available_commands
        (Transport.failure (ConnFailure.connectionError "localhost" 3000
          "Connection refused"))).2 = Json.arr [] :=
  ⟨rfl, c4_get_commands_failure_empty (mkClineAutomation none)
    (Transport.failure (ConnFailure.connectionError "localhost" 3000
      "Connection refused")) rfl⟩

/-- C5: `send_text(t)` with the default `is_new_task=False` posts
`{"command": "sendText", "args": {"text": t, "isNewTask": false}}`, and
`send_text(t, True)` posts the same body with `isNewTask` true. -/
theorem c5_send_text_payload (c : ClineAutomation) (text : String)
    (t : Transport) :
    (c.send_text_default text t).1
      = PostRequest.mk c.base_url
          (Json.obj [("command", Json.str "sendText"),
            ("args", Json.obj [("text", Json.str text),
              ("isNewTask", Json.bool false)])]) ∧
    (c.send_text text true t).1
      = PostRequest.mk c.base_url
          (Json.obj [("command", Json.str "sendText"),
            ("args", Json.obj [("text", Json.str text),
              ("isNewTask", Json.bool true)])]) :=
  ⟨rfl, rfl⟩

/-- C6 counterexample: `start_new_task` with an explicitly provided but
empty images list does not append it, because `if images:` is false for
the empty list: the body carries `args = [task]`, not `args = [task, []]`. -/
theorem c6_empty_images_counterexample :
    ((mkClineAutomation none).start_new_task "t" (some [])
        (Transport.failure (ConnFailure.connectionError "localhost" 3000
          "Connection refused"))).1.payload
      = Json.obj [("command", Json.str "startNewTask"),
          ("args", Json.arr [Json.str "t"])] ∧
    ((mkClineAutomation none).start_new_task "t" (some [])
        (Transport.failure (ConnFailure.connectionError "localhost" 3000
          "Connection refused"))).1.payload
      ≠ Json.obj [("command", Json.str "startNewTask"),
          ("args", Json.arr [Json.str "t", Json.arr []])] := by
  refine ⟨rfl, ?_⟩
  intro h
  rw [show ((mkClineAutomation none).start_new_task "t" (some [])
      (Transport.failure (ConnFailure.connectionError "localhost" 3000
        "Connection refused"))).1.payload
    = Json.obj [("command", Json.str "startNewTask"),
        ("args", Json.arr [Json.str "t"])] from rfl] at h
  injection h with h2
  injection h2 with h3 h4
  injection h4 with h5 h6
  injection h5 with h7 h8
  injection h8 with h9
  injection h9 with h10 h11
  exact List.cons_ne_nil _ _ h11.symm

/-- C6 (amended): `start_new_task(task)` posts the positional list
`args = [task]`, and `start_new_task(task, images)` for a non-empty
`images` list posts `args = [task, images]` with the images appended as a
nested list.  (An empty provided list is skipped by `if images:`.) -/
theorem c6_start_new_task_payload (c : ClineAutomation) (task : String)
    (t : Transport) :
    (c.start_new_task task none t).1
      = PostRequest.mk c.base_url
          (Json.obj [("command", Json.str "startNewTask"),
            ("args", Json.arr [Json.str task])]) ∧
    ∀ imgs : List String, imgs ≠ [] →
      (c.start_new_task task (some imgs) t).1
        = PostRequest.mk c.base_url
            (Json.obj [("command", Json.str "startNewTask"),
              ("args", Json.arr [Json.str task,
                Json.arr (imgs.map Json.str)])]) := by
  refine ⟨rfl, ?_⟩
  intro imgs h
  cases imgs with
  | nil => exact absurd rfl h
  | cons a l => rfl

/-- C6 witness: a concrete non-empty images list is appended. -/
theorem c6_start_new_task_payload_witness :
    (["img1"] : List String) ≠ [] ∧
    ((mkClineAutomation none).start_new_task "t" (some ["img1"])
        (Transport.failure (ConnFailure.timeout "localhost" 3000
          "Read timed out."))).1
      = PostRequest.mk "http://localhost:3000"
          (Json.obj [("command", Json.str "startNewTask"),
            ("args", Json.arr [Json.str "t",
              Json.arr [Json.str "img1"]])]) :=
  ⟨List.cons_ne_nil _ _,
   (c6_start_new_task_payload (mkClineAutomation none) "t"
      (Transport.failure (ConnFailure.timeout "localhost" 3000
        "Read timed out."))).2 ["img1"] (List.cons_ne_nil _ _)⟩

/-- C7: `add_to_chat(s, e)` posts the range object
`{"range": {"start": s, "end": e}}` under `addToChat`, for arbitrary
position values (no client-side validation, no `start ≤ end` requirement),
and `fix_with_cline(s, e)` builds the identical shape under
`fixWithCline`. -/
theorem c7_range_methods_payload (c : ClineAutomation) (s e : Json)
    (t : Transport) :
    (c.add_to_chat s e t).1
      = PostRequest.mk c.base_url
          (Json.obj [("command", Json.str "addToChat"),
            ("args", Json.obj [("range",
              Json.obj [("start", s), ("end", e)])])]) ∧
    (c.fix_with_cline s e t).1
      = PostRequest.mk c.base_url
          (Json.obj [("command", Json.str "fixWithCline"),
            ("args", Json.obj [("range",
              Json.obj [("start", s), ("end", e)])])]) :=
  ⟨rfl, rfl⟩

/-- C8: the base URL is set once at construction, defaults to
`http://localhost:3000` when the argument is omitted, and is left
unchanged by every sequence of client calls. -/
theorem c8_base_url_immutable (b : Option String) (ops : List Op) :
    (runOps (mkClineAutomation b) ops).base_url
      = (mkClineAutomation b).base_url ∧
    (mkClineAutomation none).base_url = "http://localhost:3000" := by
  refine ⟨?_, rfl⟩
  generalize mkClineAutomation b = c
  induction ops generalizing c with
  | nil => rfl
  | cons o rest ih =>
      have h : runOps c (o :: rest) = runOps (applyOp c o).1 rest := rfl
      rw [h, applyOp_fst]
      exact ih c

/-- C9: an explicitly provided empty images list produces exactly the same
POST as omitting the argument: `args = [task]`, nothing appended. -/
theorem c9_empty_images_same_as_none (c : ClineAutomation) (task : String)
    (t : Transport) :
    (c.start_new_task task (some []) t).1 = (c.start_new_task task none t).1 ∧
    (c.start_new_task task (some []) t).1.payload
      = Json.obj [("command", Json.str "startNewTask"),
          ("args", Json.arr [Json.str task])] :=
  ⟨rfl, rfl⟩

/-- C10: `_make_request` omits the `args` key for any falsy `args` value,
not only an absent one: an empty object and an empty list produce the same
request as no `args` at all, the bare `{"command": command}` body. -/
theorem c10_falsy_args_omitted (c : ClineAutomation) (command : String)
    (t : Transport) :
    (c._make_request command (some (Json.obj [])) t).1
      = (c._make_request command none t).1 ∧
    (c._make_request command (some (Json.arr [])) t).1
      = (c._make_request command none t).1 ∧
    (c._make_request command none t).1.payload
      = Json.obj [("command", Json.str command)] :=
  ⟨rfl, rfl, rfl⟩
